import Mathlib

/-!
Shallow embedding of the driftguard repository (drift_detector package):
the data model from models.py, the suggestion synthesis boundary from
llm.py, the exit-code signal from cli.py and the environment parsing
from config.py, together with theorems about the spec claims.
-/

namespace DriftGuard

/-- Modelled from the spec: the Severity enumeration of models.py, which is
not under src/. §3 gives the ordered enumeration low < medium < critical
with stable string identifiers; the llm.py system prompt confirms the
values critical, medium and low. -/
inductive Severity where
  | low
  | medium
  | critical
deriving DecidableEq, Repr

/-- Modelled from the spec: the stable string identifier of a Severity
value (the .value of the Python enum member). -/
def Severity.value : Severity → String
  | .low => "low"
  | .medium => "medium"
  | .critical => "critical"

/-- Modelled from the spec: the DriftType closed enumeration of models.py
(not under src/), §3. -/
inductive DriftType where
  | signature_change
  | behavior_change
  | removed_without_doc_update
  | missing_example_update
  | stale_inline_comment
  | undocumented_addition
deriving DecidableEq, Repr

/-- Modelled from the spec: the stable string identifier of a DriftType
value (the .value of the Python enum member). -/
def DriftType.value : DriftType → String
  | .signature_change => "signature_change"
  | .behavior_change => "behavior_change"
  | .removed_without_doc_update => "removed_without_doc_update"
  | .missing_example_update => "missing_example_update"
  | .stale_inline_comment => "stale_inline_comment"
  | .undocumented_addition => "undocumented_addition"

/-- Modelled from the spec: the change_kind field of CodeChange, §3. -/
inductive ChangeKind where
  | added
  | modified
  | removed
deriving DecidableEq, Repr

/-- Modelled from the spec: CodeChange of models.py (not under src/), §3:
file_path, optional symbol, change_kind, optional old_code and new_code
texts, and a short summary. Optional Python str fields are Option String. -/
structure CodeChange where
  file_path : String
  symbol : Option String
  change_kind : ChangeKind
  old_code : Option String
  new_code : Option String
  summary : String
deriving DecidableEq, Repr

/-- Modelled from the spec: DocumentationReference of models.py (not under
src/), §3: file_path, snippet, and the changed flag. -/
structure DocumentationReference where
  file_path : String
  snippet : String
  changed : Bool
deriving DecidableEq, Repr

/-- Modelled from the spec: DriftCandidate of models.py (not under src/),
§3: a code change, an ordered sequence of documentation references, a
drift type, and a description used as fallback text downstream. -/
structure DriftCandidate where
  change : CodeChange
  documentation : List DocumentationReference
  drift_type : DriftType
  description : String
deriving DecidableEq, Repr

/-- A Python value decoded from JSON by json.loads. Python maps JSON null
to None, so the null constructor stands for Python None. Objects are
association lists with distinct keys (json.loads produces a dict). -/
inductive Json where
  | null
  | bool (b : Bool)
  | num (n : Int)
  | str (s : String)
  | arr (elems : List Json)
  | obj (fields : List (String × Json))

/-- Python truthiness (bool(v)) of a decoded JSON value: a string, list or
dict is truthy exactly when nonempty. -/
def pyTruthy : Json → Bool
  | .null => false
  | .bool b => b
  | .num n => n != 0
  | .str s => !s.data.isEmpty
  | .arr l => !l.isEmpty
  | .obj f => !f.isEmpty

/-- Python str.strip(): drop whitespace from both ends. -/
def pyStrip (s : String) : String :=
  String.mk
    (((s.data.dropWhile Char.isWhitespace).reverse.dropWhile
        Char.isWhitespace).reverse)

/-- Python str.lower(), for the ASCII strings these configuration and
severity values consist of. -/
def pyLower (s : String) : String :=
  String.mk (s.data.map Char.toLower)

/-- Python value.strip().lower(), the normalization applied by
_parse_severity (llm.py line 183) and _env_bool (config.py line 50). -/
def pyStripLower (s : String) : String := pyLower (pyStrip s)

/-- The Python exceptions the embedded code can raise outside its
try block. -/
inductive PyErr where
  | attributeError
deriving DecidableEq, Repr

/-- dict.get(key) on a decoded JSON object: the first binding of the key,
with JSON null collapsed to Python None (json.loads maps null to None,
and dict.get of a missing key also returns None). -/
def jget : List (String × Json) → String → Option Json
  | [], _ => none
  | (k, v) :: rest, key =>
      if k = key then
        match v with
        | .null => none
        | _ => some v
      else jget rest key

/-- Modelled from the spec: DriftIssue of models.py (not under src/), §3.
The summary, suggestion and documentation_snippet fields receive whatever
Python value the external JSON response supplied (Python does not check
the annotation), so they are Json-valued here; metadata is the key/value
dict built in llm.py, whose symbol entry is an optional string. -/
structure DriftIssue where
  drift_type : DriftType
  severity : Severity
  file_path : String
  summary : Json
  suggestion : Json
  code_snippet : String
  documentation_snippet : Option Json
  metadata : List (String × Option String)

/-- Modelled from the spec: DriftReport of models.py (not under src/), §3:
an ordered issue sequence plus the resolved run metadata. -/
structure DriftReport where
  issues : List DriftIssue
  from_ref : Option String
  to_ref : Option String
  since : Option String
  branch : Option String

/-- Python `a or b` where a is an optional string and b a string:
a None or empty string falls through to b (llm.py line 141 and 171). -/
def pyOrStr (o : Option String) (d : String) : String :=
  match o with
  | some s => if s.data.isEmpty then d else s
  | none => d

/-- The code-change text used both in prompt_inputs and as code_snippet:
candidate.change.new_code or candidate.change.old_code or "". -/
def codeSnippetOf (ch : CodeChange) : String :=
  pyOrStr ch.new_code (pyOrStr ch.old_code "")

/-- Python str(bool) rendering used in the documentation reference lines. -/
def pyBoolStr (b : Bool) : String := if b then "True" else "False"

/-- One entry of documentation_text in LLMClient.generate_issue. -/
def renderDocRef (r : DocumentationReference) : String :=
  r.file_path ++ " (changed=" ++ pyBoolStr r.changed ++ "):\n" ++ r.snippet

/-- The prompt_inputs dict built by LLMClient.generate_issue. -/
structure PromptInputs where
  drift_type : String
  code_change : String
  documentation : String
  doc_changed : String
  candidate_description : String
deriving DecidableEq, Repr

/-- The prompt_inputs construction of LLMClient.generate_issue, llm.py
lines 126 to 146: documentation_text and doc_changed are built from the
candidate references, with a single placeholder entry when there are
none, then joined. -/
def prompt_inputs (c : DriftCandidate) : PromptInputs :=
  let documentation_text := c.documentation.map renderDocRef
  let doc_changed := c.documentation.map (fun r => if r.changed then "yes" else "no")
  let pair :=
    if documentation_text.isEmpty then
      (["No related documentation found."], ["n/a"])
    else (documentation_text, doc_changed)
  { drift_type := c.drift_type.value
    code_change := c.change.summary ++ "\n\n" ++ codeSnippetOf c.change
    documentation := String.intercalate "\n\n---\n\n" pair.1
    doc_changed := String.intercalate ", " pair.2
    candidate_description := c.description }

/-- The observable behavior of the external text-generation boundary in
one generate_issue run: the chain invocation raises, or it returns a
string that json.loads rejects, or json.loads yields the value j. -/
inductive LLMBehavior where
  | raises
  | unparseable
  | parsed (j : Json)

/-- The local fallback dict assigned to data in the except branch of
LLMClient.generate_issue, llm.py lines 151 to 158. -/
def fallbackData (c : DriftCandidate) (fallback_severity : Severity) : Json :=
  .obj [("summary", .str c.description),
        ("severity", .str fallback_severity.value),
        ("suggestion", .str "Review and update related documentation accordingly."),
        ("doc_excerpt", .null)]

/-- The severity lookup loop of _parse_severity: the first Severity member
whose .value equals the normalized string. -/
def severityOfString (s : String) : Option Severity :=
  if s = "low" then some .low
  else if s = "medium" then some .medium
  else if s = "critical" then some .critical
  else none

/-- _parse_severity of llm.py lines 180 to 187, under Python dynamic
typing: a falsy value (None, empty string, 0, empty list, ...) yields the
default; a truthy non-string has no .strip method and raises
AttributeError; a truthy string is stripped, lowercased and looked up,
unknown identifiers yielding the default. -/
def parse_severity (value : Option Json) (default : Severity) :
    Except PyErr Severity :=
  match value with
  | none => .ok default
  | some v =>
      if pyTruthy v then
        match v with
        | .str s =>
            match severityOfString (pyStripLower s) with
            | some sev => .ok sev
            | none => .ok default
        | _ => .error .attributeError
      else .ok default

/-- Python `data.get(key) or candidate.description` (llm.py lines 161
and 162): a missing key or falsy value falls back to the description. -/
def getOr (o : Option Json) (d : String) : Json :=
  match o with
  | none => .str d
  | some v => if pyTruthy v then v else .str d

/-- The tail of LLMClient.generate_issue after data is bound (llm.py
lines 160 to 177): every data.get requires data to be a dict, so a
non-object raises AttributeError; then the severity is parsed, the
summary and suggestion fall back to the candidate description when
missing or falsy, doc_excerpt is taken as is, and the issue is built. -/
def generate_issue_core (c : DriftCandidate) (data : Json)
    (provider : String) (fallback_severity : Severity) :
    Except PyErr DriftIssue :=
  match data with
  | .obj fields =>
      (parse_severity (jget fields "severity") fallback_severity).map
        fun severity =>
          { drift_type := c.drift_type
            severity := severity
            file_path := c.change.file_path
            summary := getOr (jget fields "summary") c.description
            suggestion := getOr (jget fields "suggestion") c.description
            code_snippet := codeSnippetOf c.change
            documentation_snippet := jget fields "doc_excerpt"
            metadata := [("provider", some provider),
                         ("symbol", c.change.symbol)] }
  | _ => .error .attributeError

/-- The try block of LLMClient.generate_issue (llm.py lines 148 to 158):
the single chain.invoke call site runs exactly once per invocation, so
every behavior contributes one outbound call; a raising invocation or an
unparseable response lands in the except branch, which substitutes the
local fallback dict. Returns the data value together with the number of
outbound calls made. -/
def tryGetData (c : DriftCandidate) (fallback_severity : Severity)
    (beh : LLMBehavior) : Json × Nat :=
  match beh with
  | .raises => (fallbackData c fallback_severity, 1)
  | .unparseable => (fallbackData c fallback_severity, 1)
  | .parsed j => (j, 1)

/-- LLMClient.generate_issue, llm.py lines 120 to 177, instrumented with
the count of outbound calls to the external capability. The provider
argument stands for type(self.chat_model).__name__; fallback_severity
defaults to Severity.MEDIUM at the Python call site. -/
def generate_issue_run (c : DriftCandidate) (beh : LLMBehavior)
    (provider : String) (fallback_severity : Severity) :
    Except PyErr DriftIssue × Nat :=
  let p := tryGetData c fallback_severity beh
  (generate_issue_core c p.1 provider fallback_severity, p.2)

/-- LLMClient.generate_issue as observed by the caller: the returned issue
or the escaping exception. -/
def generate_issue (c : DriftCandidate) (beh : LLMBehavior)
    (provider : String) (fallback_severity : Severity) :
    Except PyErr DriftIssue :=
  (generate_issue_run c beh provider fallback_severity).1

/-- _has_critical_issues of cli.py lines 131 to 132: whether any issue of
the report has critical severity. -/
def has_critical_issues (report : DriftReport) : Bool :=
  report.issues.any (fun issue => issue.severity = Severity.critical)

/-- The return statement of run_cli, cli.py lines 107 to 109: exit code 1
when the report has a critical issue, otherwise 0. -/
def run_cli_exit (report : DriftReport) : Nat :=
  if has_critical_issues report then 1 else 0

/-- _env_bool of config.py lines 47 to 50: an unset variable yields the
default; otherwise the value, stripped and lowercased, must be one of
1, true, yes, on. -/
def env_bool (value : Option String) (default : Bool) : Bool :=
  match value with
  | none => default
  | some v => decide (pyStripLower v ∈ (["1", "true", "yes", "on"] : List String))

/-- The AnalysisSettings dataclass of config.py. -/
structure AnalysisSettings where
  severity_threshold : String
  auto_ignore_private_functions : Bool
  check_examples : Bool
  check_inline_comments : Bool
deriving DecidableEq, Repr

/-- The analysis part of load_settings, config.py lines 71 to 78, with
os.getenv modelled as a map from variable names to optional strings. -/
def load_analysis (env : String → Option String) : AnalysisSettings :=
  { severity_threshold := (env "SEVERITY_THRESHOLD").getD "low"
    auto_ignore_private_functions :=
      env_bool (env "AUTO_IGNORE_PRIVATE_FUNCTIONS") true
    check_examples := env_bool (env "CHECK_EXAMPLES") true
    check_inline_comments := env_bool (env "CHECK_INLINE_COMMENTS") true }

/-- The save_report field of the output part of load_settings, config.py
lines 80 to 84. -/
def load_save_report (env : String → Option String) : Bool :=
  env_bool (env "SAVE_REPORT") false

/-! Shared helper values and lemmas. -/

/-- The deterministic local fallback issue: what generate_issue returns
when the whole external call fails and the except branch substitutes the
fallback dict. -/
def fallbackIssue (c : DriftCandidate) (provider : String)
    (fb : Severity) : DriftIssue :=
  { drift_type := c.drift_type
    severity := fb
    file_path := c.change.file_path
    summary := .str c.description
    suggestion := .str "Review and update related documentation accordingly."
    code_snippet := codeSnippetOf c.change
    documentation_snippet := none
    metadata := [("provider", some provider), ("symbol", c.change.symbol)] }

/-- A sample code change used to instantiate theorems at concrete input. -/
def sampleChange : CodeChange :=
  { file_path := "src/app.py"
    symbol := some "handler"
    change_kind := .modified
    old_code := some "def handler(x): return x"
    new_code := some "def handler(x, y): return x + y"
    summary := "handler gained a parameter" }

/-- A sample drift candidate used to instantiate theorems at concrete
input. -/
def sampleCandidate : DriftCandidate :=
  { change := sampleChange
    documentation := [{ file_path := "docs/api.md"
                        snippet := "handler takes one argument"
                        changed := false }]
    drift_type := .signature_change
    description := "handler signature changed but docs were not updated" }

lemma getOr_str_self (d : String) : getOr (some (.str d)) d = .str d := by
  simp [getOr]

lemma parse_severity_value (fb d : Severity) :
    parse_severity (some (.str fb.value)) d = .ok fb := by
  cases fb <;> rfl

lemma except_map_ok {ε α β : Type} (x : Except ε α) (f : α → β) (b : β)
    (h : x.map f = .ok b) : ∃ a, x = .ok a ∧ f a = b := by
  cases x with
  | error e => exact Except.noConfusion h
  | ok a =>
      refine ⟨a, rfl, ?_⟩
      have h2 : Except.ok (ε := ε) (f a) = .ok b := h
      injection h2

lemma generate_issue_core_fallback (c : DriftCandidate) (prov : String)
    (fb : Severity) :
    generate_issue_core c (fallbackData c fb) prov fb
      = .ok (fallbackIssue c prov fb) := by
  have h1 : jget [("summary", Json.str c.description),
      ("severity", Json.str fb.value),
      ("suggestion",
        Json.str "Review and update related documentation accordingly."),
      ("doc_excerpt", Json.null)] "severity" = some (Json.str fb.value) := rfl
  show (parse_severity (jget _ "severity") fb).map _ = _
  rw [h1, parse_severity_value]
  show Except.ok _ = _
  rw [Except.ok.injEq]
  show ({ summary := getOr (some (Json.str c.description)) c.description,
          suggestion := _, documentation_snippet := _ , .. } : DriftIssue) = _
  rw [getOr_str_self]
  rfl

lemma generate_issue_failure (c : DriftCandidate) (prov : String)
    (fb : Severity) (beh : LLMBehavior)
    (h : beh = .raises ∨ beh = .unparseable) :
    generate_issue c beh prov fb = .ok (fallbackIssue c prov fb) := by
  rcases h with h | h <;> subst h <;>
    exact generate_issue_core_fallback c prov fb

/-- The issue generate_issue builds for sampleCandidate from a response
object carrying severity low and a suggestion but no summary: the
severity and suggestion come from the response while the summary falls
back to the candidate description. -/
def sampleMixedIssue : DriftIssue :=
  { drift_type := .signature_change
    severity := .low
    file_path := "src/app.py"
    summary := .str "handler signature changed but docs were not updated"
    suggestion := .str "Fix the docs"
    code_snippet := "def handler(x, y): return x + y"
    documentation_snippet := none
    metadata := [("provider", some "ChatOllama"), ("symbol", some "handler")] }

lemma severityOfString_eq_none (s : String)
    (h : s ∉ (["low", "medium", "critical"] : List String)) :
    severityOfString s = none := by
  unfold severityOfString
  split_ifs with h1 h2 h3 <;> simp_all

lemma generate_issue_core_ok (c : DriftCandidate) (data : Json)
    (prov : String) (fb : Severity) (issue : DriftIssue)
    (h : generate_issue_core c data prov fb = .ok issue) :
    ∃ fields sev, data = .obj fields
      ∧ parse_severity (jget fields "severity") fb = .ok sev
      ∧ issue =
          { drift_type := c.drift_type
            severity := sev
            file_path := c.change.file_path
            summary := getOr (jget fields "summary") c.description
            suggestion := getOr (jget fields "suggestion") c.description
            code_snippet := codeSnippetOf c.change
            documentation_snippet := jget fields "doc_excerpt"
            metadata := [("provider", some prov),
                         ("symbol", c.change.symbol)] } := by
  cases data with
  | obj fields =>
      obtain ⟨sev, hsev, hmap⟩ := except_map_ok _ _ _ h
      exact ⟨fields, sev, rfl, hsev, hmap.symm⟩
  | null => exact Except.noConfusion h
  | bool b => exact Except.noConfusion h
  | num n => exact Except.noConfusion h
  | str s => exact Except.noConfusion h
  | arr l => exact Except.noConfusion h

lemma generate_issue_ok_snippet (c : DriftCandidate) (beh : LLMBehavior)
    (prov : String) (fb : Severity) (issue : DriftIssue)
    (h : generate_issue c beh prov fb = .ok issue) :
    issue.code_snippet = codeSnippetOf c.change := by
  have h' : generate_issue_core c (tryGetData c fb beh).1 prov fb
      = .ok issue := h
  obtain ⟨fields, sev, hdata, hsev, hissue⟩ :=
    generate_issue_core_ok c _ prov fb issue h'
  subst hissue
  rfl

/-! Claim theorems. -/

/-- C1: the claim says generate_issue returns a DriftIssue and never
raises for every behavior of the external capability, including a
response string that parses as JSON to a non-object value. The code
violates this: json.loads runs inside the try block, but data.get runs
after it, so a response that parses to a JSON array escapes the error
boundary as an AttributeError. This theorem evaluates the embedded code
at the failing input. -/
theorem generate_issue_raises_on_non_object_json :
    generate_issue sampleCandidate (.parsed (.arr [])) "ChatOllama" .medium
      = .error .attributeError := rfl

/-- C2: for every candidate, when the external call fails (the invocation
raises, or its output is not parseable as JSON), generate_issue returns
the deterministic local fallback issue: summary is the candidate
description, severity is the supplied fallback severity, suggestion is
the generic review-and-update instruction, and documentation_snippet is
absent. -/
theorem generate_issue_failed_call_is_fallback (c : DriftCandidate)
    (fb : Severity) (prov : String) (beh : LLMBehavior)
    (h : beh = .raises ∨ beh = .unparseable) :
    generate_issue c beh prov fb =
      .ok { drift_type := c.drift_type
            severity := fb
            file_path := c.change.file_path
            summary := .str c.description
            suggestion :=
              .str "Review and update related documentation accordingly."
            code_snippet := codeSnippetOf c.change
            documentation_snippet := none
            metadata := [("provider", some prov),
                         ("symbol", c.change.symbol)] } :=
  generate_issue_failure c prov fb beh h

/-- Witness for C2 at a concrete candidate and a raising capability. -/
theorem generate_issue_failed_call_is_fallback_witness :
    generate_issue sampleCandidate .raises "ChatOllama" .medium =
      .ok { drift_type := .signature_change
            severity := .medium
            file_path := "src/app.py"
            summary :=
              .str "handler signature changed but docs were not updated"
            suggestion :=
              .str "Review and update related documentation accordingly."
            code_snippet := "def handler(x, y): return x + y"
            documentation_snippet := none
            metadata := [("provider", some "ChatOllama"),
                         ("symbol", some "handler")] } :=
  generate_issue_failed_call_is_fallback sampleCandidate .medium "ChatOllama"
    .raises (Or.inl rfl)

/-- C4: for a fixed candidate, provider and fallback severity, any two
runs in which the external capability fails produce identical DriftIssue
values, every field including metadata — the fallback does not depend on
which failure occurred. -/
theorem generate_issue_fallback_deterministic (c : DriftCandidate)
    (fb : Severity) (prov : String) (beh beh' : LLMBehavior)
    (h : beh = .raises ∨ beh = .unparseable)
    (h' : beh' = .raises ∨ beh' = .unparseable) :
    generate_issue c beh prov fb = generate_issue c beh' prov fb := by
  rcases h with h | h <;> rcases h' with h' | h' <;> subst h <;> subst h' <;> rfl

/-- Witness for C4: a raising invocation and an unparseable response give
the same issue at a concrete candidate. -/
theorem generate_issue_fallback_deterministic_witness :
    generate_issue sampleCandidate .raises "ChatOllama" .medium
      = generate_issue sampleCandidate .unparseable "ChatOllama" .medium :=
  generate_issue_fallback_deterministic sampleCandidate .medium "ChatOllama"
    .raises .unparseable (Or.inl rfl) (Or.inr rfl)

/-- C9: a single invocation of generate_issue performs exactly one
outbound call to the external capability, for every behavior of that
capability — in particular at most one, and no retry precedes the local
fallback when the call fails. -/
theorem generate_issue_at_most_one_call (c : DriftCandidate)
    (beh : LLMBehavior) (prov : String) (fb : Severity) :
    (generate_issue_run c beh prov fb).2 = 1 ∧
      (generate_issue_run c beh prov fb).2 ≤ 1 := by
  cases beh <;> exact ⟨rfl, Nat.le_refl 1⟩

/-- C3 counterexample: for a response object that is missing the required
summary field but carries severity low and a suggestion, generate_issue
keeps the response severity and suggestion and only defaults the summary,
so the result is a mixture and not the deterministic local fallback issue
(whose severity would be the fallback default medium and whose suggestion
would be the generic instruction). -/
theorem generate_issue_missing_summary_counterexample :
    generate_issue sampleCandidate
        (.parsed (.obj [("severity", Json.str "low"),
                        ("suggestion", Json.str "Fix the docs")]))
        "ChatOllama" .medium
      = .ok sampleMixedIssue
    ∧ sampleMixedIssue.severity ≠ Severity.medium
    ∧ generate_issue sampleCandidate
        (.parsed (.obj [("severity", Json.str "low"),
                        ("suggestion", Json.str "Fix the docs")]))
        "ChatOllama" .medium
      ≠ .ok (fallbackIssue sampleCandidate "ChatOllama" .medium) := by
  refine ⟨rfl, by decide, fun h => ?_⟩
  have h2 : Except.ok (ε := PyErr) sampleMixedIssue
      = .ok (fallbackIssue sampleCandidate "ChatOllama" .medium) := h
  injection h2 with h3
  have h4 : sampleMixedIssue.severity
      = (fallbackIssue sampleCandidate "ChatOllama" .medium).severity :=
    congrArg DriftIssue.severity h3
  exact absurd h4 (by decide)

/-- C3 amended: when the external response parses to a JSON object and
generate_issue returns an issue, each missing required field individually
falls back — a missing summary to the candidate description, a missing
severity to the fallback default, a missing suggestion to the candidate
description — while fields present in the response are kept, so the
result can mix response-provided and fallback values. -/
theorem generate_issue_missing_field_fallbacks (c : DriftCandidate)
    (prov : String) (fb : Severity) (fields : List (String × Json))
    (issue : DriftIssue)
    (hok : generate_issue c (.parsed (.obj fields)) prov fb = .ok issue) :
    (jget fields "summary" = none → issue.summary = .str c.description)
    ∧ (jget fields "severity" = none → issue.severity = fb)
    ∧ (jget fields "suggestion" = none →
        issue.suggestion = .str c.description) := by
  have h' : generate_issue_core c (.obj fields) prov fb = .ok issue := hok
  obtain ⟨fields', sev, hdata, hsev, hissue⟩ :=
    generate_issue_core_ok c _ prov fb issue h'
  injection hdata with hf
  subst hf
  subst hissue
  refine ⟨fun hn => ?_, fun hn => ?_, fun hn => ?_⟩
  · show getOr (jget fields "summary") c.description = _
    rw [hn]; rfl
  · rw [hn] at hsev
    have h3 : Except.ok (ε := PyErr) fb = .ok sev := hsev
    injection h3 with h4
    exact h4.symm
  · show getOr (jget fields "suggestion") c.description = _
    rw [hn]; rfl

/-- Witness for the C3 amended theorem: at a concrete response missing
the summary key, the produced issue's summary is the candidate
description. -/
theorem generate_issue_missing_field_fallbacks_witness :
    sampleMixedIssue.summary
      = .str "handler signature changed but docs were not updated" :=
  (generate_issue_missing_field_fallbacks sampleCandidate "ChatOllama"
      .medium [("severity", Json.str "low"),
               ("suggestion", Json.str "Fix the docs")]
      sampleMixedIssue rfl).1 rfl

/-- C5: a severity value that is absent (or falsy) yields the fallback
default; a severity string whose stripped lowercase form is not one of
the recognized identifiers low, medium, critical yields the fallback
default; and on every severity string _parse_severity returns some
Severity — it never raises and never rejects the response outright. -/
theorem parse_severity_unknown_is_default (d : Severity) :
    (parse_severity none d = .ok d)
    ∧ (∀ s : String,
        pyStripLower s ∉ (["low", "medium", "critical"] : List String) →
        parse_severity (some (.str s)) d = .ok d)
    ∧ (∀ s : String, ∃ sev : Severity,
        parse_severity (some (.str s)) d = .ok sev) := by
  have hstr : ∀ s : String, parse_severity (some (.str s)) d
      = if pyTruthy (.str s) then
          (match severityOfString (pyStripLower s) with
           | some sev => .ok sev
           | none => .ok d)
        else .ok d := fun s => rfl
  refine ⟨rfl, fun s hs => ?_, fun s => ?_⟩
  · rw [hstr, severityOfString_eq_none _ hs]
    split <;> rfl
  · rw [hstr]
    split
    · cases severityOfString (pyStripLower s) with
      | some sev => exact ⟨sev, rfl⟩
      | none => exact ⟨d, rfl⟩
    · exact ⟨d, rfl⟩

/-- Witness for C5: the unrecognized severity string weird yields the
fallback default medium. -/
theorem parse_severity_unknown_is_default_witness :
    parse_severity (some (.str "weird")) .medium = .ok .medium :=
  (parse_severity_unknown_is_default .medium).2.1 "weird" (by decide)

/-- C6: the code-change text placed in the external request and the
code_snippet of every produced issue both equal new_code when present
(nonempty), else old_code, else the empty string; in particular a present
nonempty new_code is the code_snippet, and with no new_code the text
falls back to old_code. -/
theorem code_change_rendering (c : DriftCandidate) (prov : String)
    (fb : Severity) (beh : LLMBehavior) :
    ((prompt_inputs c).code_change
        = c.change.summary ++ "\n\n" ++ codeSnippetOf c.change)
    ∧ (∀ issue : DriftIssue, generate_issue c beh prov fb = .ok issue →
        issue.code_snippet = codeSnippetOf c.change)
    ∧ (∀ s : String, c.change.new_code = some s → s ≠ "" →
        codeSnippetOf c.change = s)
    ∧ (c.change.new_code = none →
        codeSnippetOf c.change = pyOrStr c.change.old_code "") := by
  refine ⟨rfl, fun issue h => generate_issue_ok_snippet c beh prov fb issue h,
    fun s hnew hne => ?_, fun hnone => ?_⟩
  · unfold codeSnippetOf pyOrStr
    rw [hnew]
    have : ¬ s.data.isEmpty = true := by
      intro hd
      exact hne (String.ext (List.isEmpty_iff.mp hd))
    simp [this]
  · unfold codeSnippetOf pyOrStr
    rw [hnone]

/-- Witness for C6 at the sample candidate, whose new_code is present. -/
theorem code_change_rendering_witness :
    codeSnippetOf sampleChange = "def handler(x, y): return x + y"
    ∧ (prompt_inputs sampleCandidate).code_change
        = "handler gained a parameter" ++ "\n\n" ++ codeSnippetOf sampleChange :=
  ⟨(code_change_rendering sampleCandidate "ChatOllama" .medium .raises).2.2.1
      "def handler(x, y): return x + y" rfl (by decide),
   (code_change_rendering sampleCandidate "ChatOllama" .medium .raises).1⟩

/-- C7: the boolean signal _has_critical_issues is true exactly when some
issue of the report has critical severity, and the run_cli return value
is 1 exactly when the signal is true and 0 otherwise. -/
theorem has_critical_exit_code (r : DriftReport) :
    (has_critical_issues r = true ↔
      ∃ issue ∈ r.issues, issue.severity = Severity.critical)
    ∧ (run_cli_exit r = 1 ↔ has_critical_issues r = true)
    ∧ (run_cli_exit r = 0 ↔ has_critical_issues r = false) := by
  refine ⟨?_, ?_, ?_⟩
  · simp [has_critical_issues, List.any_eq_true]
  · unfold run_cli_exit
    by_cases h : has_critical_issues r <;> simp [h]
  · unfold run_cli_exit
    by_cases h : has_critical_issues r <;> simp [h]

/-- C8 counterexample: the claim says no failing-capability run and
succeeding-capability run yield field-for-field identical issues. But a
succeeding capability whose parsed response supplies exactly the fallback
field values produces an issue identical to the fallback issue of a
failing run — the metadata carries no generated_by_fallback marker. -/
theorem fallback_indistinguishable_counterexample :
    generate_issue sampleCandidate
        (.parsed (fallbackData sampleCandidate .medium)) "ChatOllama" .medium
      = generate_issue sampleCandidate .raises "ChatOllama" .medium
    ∧ generate_issue sampleCandidate
        (.parsed (fallbackData sampleCandidate .medium)) "ChatOllama" .medium
      = .ok (fallbackIssue sampleCandidate "ChatOllama" .medium) :=
  ⟨rfl, generate_issue_core_fallback sampleCandidate "ChatOllama" .medium⟩

/-- C8 amended: a fallback issue is not distinguishable from a success
issue by the issue fields alone: for every candidate there is a parseable
successful response under which generate_issue returns an issue
field-for-field identical to the one of a failing run; the issue and
report carry no generated_by_fallback marker, so the only caller-visible
distinction between the two failure classes is the fatal exception of a
bad revision spec versus an ordinary issue. -/
theorem fallback_no_marker (c : DriftCandidate) (prov : String)
    (fb : Severity) :
    ∃ j : Json,
      generate_issue c (.parsed j) prov fb = generate_issue c .raises prov fb
      ∧ generate_issue c (.parsed j) prov fb = .ok (fallbackIssue c prov fb) :=
  ⟨fallbackData c fb, rfl, generate_issue_core_fallback c prov fb⟩

/-- C10: _env_bool yields the default exactly when the variable is unset;
a set value yields true exactly when its stripped lowercase form is one
of 1, true, yes, on; load_settings wires the four policy flags through
_env_bool with their defaults; and the non-empty string enabled yields
false even though the flag defaults to true. -/
theorem env_bool_truthy_strings (s : String) (d : Bool)
    (env : String → Option String) :
    (env_bool none d = d)
    ∧ (env_bool (some s) d = true ↔
        pyStripLower s ∈ (["1", "true", "yes", "on"] : List String))
    ∧ ((load_analysis env).auto_ignore_private_functions
        = env_bool (env "AUTO_IGNORE_PRIVATE_FUNCTIONS") true)
    ∧ ((load_analysis env).check_examples = env_bool (env "CHECK_EXAMPLES") true)
    ∧ ((load_analysis env).check_inline_comments
        = env_bool (env "CHECK_INLINE_COMMENTS") true)
    ∧ (load_save_report env = env_bool (env "SAVE_REPORT") false)
    ∧ (env_bool (some "enabled") true = false) := by
  refine ⟨rfl, ?_, rfl, rfl, rfl, rfl, by decide⟩
  simp [env_bool]

end DriftGuard
